import Mathlib

/-!
Shallow embedding of the MOOSE device-selection and managed-output subsystem
(`src/moosez/system.py`) and of the model registry (`src/moosez/resources.py`).

Python functions are translated into executable Lean definitions; stateful
operations become explicit state passing.  Environment probes (the torch
accelerator queries, the clock, the working directory) become explicit input
records, and the side channels a function uses (console printing, logging
records, created files, redirected streams) become explicit output components,
so that claims about calls, ordering and restoration are expressible.
-/

namespace Moosez

/-- Modelled from the spec: the tool version string lives in `moosez.constants`,
which is not under `src/`; the spec only requires that log file names embed it
(`<tool>-v<version>_<timestamp>.log`), so the concrete value is immaterial. -/
def VERSION : String := "3.0"

/-- Modelled from the spec: ANSI styling escape used by the banners
(`moosez.constants`, not under `src/`); its concrete value is immaterial. -/
def ANSI_VIOLET : String := "\x1b[38;2;181;136;227m"

/-- Modelled from the spec: ANSI reset escape (`moosez.constants`,
not under `src/`); its concrete value is immaterial. -/
def ANSI_RESET : String := "\x1b[0m"

namespace Resources

/-- `resources.AVAILABLE_MODELS`: the unique identifiers of all available
pre-trained models (`src/moosez/resources.py`, lines 30-46). -/
def AVAILABLE_MODELS : List String :=
  ["clin_ct_lungs",
   "clin_ct_organs",
   "clin_ct_body",
   "preclin_mr_all",
   "clin_ct_ribs",
   "clin_ct_muscles",
   "clin_ct_peripheral_bones",
   "clin_ct_fat",
   "clin_ct_vertebrae",
   "clin_ct_cardiac",
   "clin_ct_digestive",
   "preclin_ct_legs",
   "clin_ct_all_bones_v1",
   "clin_ct_PUMA",
   "clin_pt_fdg_brain_v1",
   "clin_ct_ALPACA",
   "clin_ct_PUMA4"]

/-- One entry of the `resources.MODELS` dictionary.  The `voxel_spacing` field
(a triple of binary floating-point numbers) and the label-tag field are not
inspected by any claim and are omitted from the embedding; all the string
fields are kept verbatim. -/
structure ModelInfo where
  url : String
  filename : String
  directory : String
  trainer : String
  configuration : String
  planner : String
deriving DecidableEq, Repr

/-- `resources.MODELS` (`src/moosez/resources.py`, lines 62-233), as an
association list from model identifier to its metadata entry. -/
def MODELS : List (String × ModelInfo) :=
  [("clin_ct_lungs",
    { url := "https://enhance-pet.s3.eu-central-1.amazonaws.com/moose/clin_ct_lungs_24062023.zip",
      filename := "Dataset333_HMS3dlungs.zip",
      directory := "Dataset333_HMS3dlungs",
      trainer := "nnUNetTrainer_2000epochs_NoMirroring",
      configuration := "3d_fullres",
      planner := "nnUNetPlans" }),
   ("clin_ct_organs",
    { url := "https://enhance-pet.s3.eu-central-1.amazonaws.com/moose/clin_ct_organs_23062023.zip",
      filename := "Dataset123_Organs.zip",
      directory := "Dataset123_Organs",
      trainer := "nnUNetTrainer_2000epochs_NoMirroring",
      configuration := "3d_fullres",
      planner := "nnUNetPlans" }),
   ("preclin_mr_all",
    { url := "https://enhance-pet.s3.eu-central-1.amazonaws.com/moose/preclin_mr_all_05122023.zip",
      filename := "Dataset234_minimoose.zip",
      directory := "Dataset234_minimoose",
      trainer := "nnUNetTrainer",
      configuration := "3d_fullres",
      planner := "nnUNetPlans" }),
   ("clin_ct_body",
    { url := "https://enhance-pet.s3.eu-central-1.amazonaws.com/moose/clin_ct_body_27112023.zip",
      filename := "Dataset001_body.zip",
      directory := "Dataset001_body",
      trainer := "nnUNetTrainer",
      configuration := "3d_fullres",
      planner := "nnUNetPlans" }),
   ("clin_ct_ribs",
    { url := "https://enhance-pet.s3.eu-central-1.amazonaws.com/moose/clin_ct_ribs_19032024.zip",
      filename := "Dataset444_Ribs.zip",
      directory := "Dataset444_Ribs",
      trainer := "nnUNetTrainer_2000epochs_NoMirroring",
      configuration := "3d_fullres_big_patch",
      planner := "nnUNetPlans" }),
   ("clin_ct_muscles",
    { url := "https://enhance-pet.s3.eu-central-1.amazonaws.com/moose/clin_ct_muscles_06022024.zip",
      filename := "Dataset555_Muscles.zip",
      directory := "Dataset555_Muscles",
      trainer := "nnUNetTrainer_2000epochs_NoMirroring",
      configuration := "3d_fullres",
      planner := "nnUNetPlans" }),
   ("clin_ct_peripheral_bones",
    { url := "https://enhance-pet.s3.eu-central-1.amazonaws.com/moose/clin_ct_peripheral_bones_28082023.zip",
      filename := "Dataset666_Peripheral-Bones.zip",
      directory := "Dataset666_Peripheral-Bones",
      trainer := "nnUNetTrainer_2000epochs_NoMirroring",
      configuration := "3d_fullres",
      planner := "nnUNetPlans" }),
   ("clin_ct_fat",
    { url := "https://enhance-pet.s3.eu-central-1.amazonaws.com/moose/clin_ct_fat_31082023.zip",
      filename := "Dataset777_Fat.zip",
      directory := "Dataset777_Fat",
      trainer := "nnUNetTrainer_2000epochs_NoMirroring",
      configuration := "3d_fullres",
      planner := "nnUNetPlans" }),
   ("clin_ct_vertebrae",
    { url := "https://enhance-pet.s3.eu-central-1.amazonaws.com/moose/clin_ct_vertebrae_da5_03102023.zip",
      filename := "Dataset111_Vertebrae.zip",
      directory := "Dataset111_Vertebrae",
      trainer := "nnUNetTrainer_2000_epochs_DA5NoMirroring",
      configuration := "3d_fullres",
      planner := "nnUNetPlans" }),
   ("clin_ct_cardiac",
    { url := "https://enhance-pet.s3.eu-central-1.amazonaws.com/moose/clin_ct_cardiac_26012024.zip",
      filename := "Dataset888_Cardiac.zip",
      directory := "Dataset888_Cardiac",
      trainer := "nnUNetTrainer_2000epochs_NoMirroring",
      configuration := "3d_fullres",
      planner := "nnUNetPlans" }),
   ("clin_ct_digestive",
    { url := "https://enhance-pet.s3.eu-central-1.amazonaws.com/moose/clin_ct_digestive_10092023.zip",
      filename := "Dataset999_Digestive.zip",
      directory := "Dataset999_Digestive",
      trainer := "nnUNetTrainer_2000epochs_NoMirroring",
      configuration := "3d_fullres",
      planner := "nnUNetPlans" }),
   ("preclin_ct_legs",
    { url := "https://enhance-pet.s3.eu-central-1.amazonaws.com/moose/preclin_ct_legs_05122023.zip",
      filename := "Dataset256_Preclin_leg_muscles.zip",
      directory := "Dataset256_Preclin_leg_muscles",
      trainer := "nnUNetTrainerNoMirroring",
      configuration := "3d_fullres",
      planner := "nnUNetPlans" }),
   ("clin_ct_all_bones_v1",
    { url := "https://enhance-pet.s3.eu-central-1.amazonaws.com/moose/clin_ct_all_bones_25102023.zip",
      filename := "Dataset600_Original_bones.zip",
      directory := "Dataset600_Original_bones",
      trainer := "nnUNetTrainer_2000epochs",
      configuration := "3d_fullres",
      planner := "nnUNetPlans" }),
   ("clin_ct_PUMA",
    { url := "https://enhance-pet.s3.eu-central-1.amazonaws.com/moose/clin_ct_PUMA_1k_23052024.zip",
      filename := "Dataset002_PUMA.zip",
      directory := "Dataset002_PUMA",
      trainer := "nnUNetTrainer_2000epochs_NoMirroring",
      configuration := "3d_fullres",
      planner := "nnUNetPlans" }),
   ("clin_pt_fdg_brain_v1",
    { url := "https://enhance-pet.s3.eu-central-1.amazonaws.com/moose/clin_fdg_pt_brain_v1_17112023.zip",
      filename := "Dataset100_Brain_v1.zip",
      directory := "Dataset100_Brain_v1",
      trainer := "nnUNetTrainer_2000epochs_NoMirroring",
      configuration := "3d_fullres",
      planner := "nnUNetPlans" }),
   ("clin_ct_ALPACA",
    { url := "https://enhance-pet.s3.eu-central-1.amazonaws.com/moose/clin_ct_ALPACA.zip",
      filename := "Dataset080_Alpaca.zip",
      directory := "Dataset080_Alpaca",
      trainer := "nnUNetTrainer_2000epochs_NoMirroring",
      configuration := "3d_fullres",
      planner := "nnUNetPlans" }),
   ("clin_ct_PUMA4",
    { url := "https://enhance-pet.s3.eu-central-1.amazonaws.com/moose/clin_ct_PUMA4_06032024.zip",
      filename := "Dataset003_PUMA4.zip",
      directory := "Dataset003_PUMA4",
      trainer := "nnUNetTrainer_2000epochs",
      configuration := "3d_fullres",
      planner := "nnUNetPlans" })]

/-- The dictionary local to `resources.expected_modality`
(`src/moosez/resources.py`, lines 249-267): model identifier to
(Imaging, Modality, Tissue of interest). -/
def expected_modality_table : List (String × (String × String × String)) :=
  [("clin_ct_lungs", ("Clinical", "CT", "Lungs")),
   ("clin_ct_organs", ("Clinical", "CT", "Organs")),
   ("clin_ct_body", ("Clinical", "CT", "Body, Arms, legs, head")),
   ("preclin_mr_all", ("Pre-clinical", "MR", "All regions")),
   ("clin_ct_ribs", ("Clinical", "CT", "Ribs")),
   ("clin_ct_muscles", ("Clinical", "CT", "Muscles")),
   ("clin_ct_peripheral_bones", ("Clinical", "CT", "Peripheral Bones")),
   ("clin_ct_fat", ("Clinical", "CT", "Fat")),
   ("clin_ct_vertebrae", ("Clinical", "CT", "Vertebrae")),
   ("clin_ct_cardiac", ("Clinical", "CT", "Cardiac")),
   ("clin_ct_digestive", ("Clinical", "CT", "Digestive")),
   ("preclin_ct_legs", ("Pre-clinical", "CT", "Legs")),
   ("clin_ct_all_bones_v1", ("Clinical", "CT", "All bones")),
   ("clin_ct_PUMA", ("Clinical", "CT", "PUMA tissues")),
   ("clin_pt_fdg_brain_v1", ("Clinical", "PT", "Brain regions")),
   ("clin_ct_ALPACA", ("Clinical", "CT", "ALPACA tissues")),
   ("clin_ct_PUMA4", ("Clinical", "CT", "PUMA tissues"))]

/-- `resources.expected_modality` (`src/moosez/resources.py`, lines 243-275).
The Python function returns a dict either way: on a hit, the modality entry
with the key "Model name" added; on a miss, it logs an error to the ambient
root logger (a module-level side effect, no session state) and returns a dict
with the single key "Error".  The returned dict is embedded as an association
list of key/value pairs in insertion order. -/
def expected_modality (model_name : String) : List (String × String) :=
  match expected_modality_table.lookup model_name with
  | some (imaging, modality, tissue) =>
      [("Imaging", imaging), ("Modality", modality),
       ("Tissue of interest", tissue), ("Model name", model_name)]
  | none =>
      [("Error", "Requested model is not available. Please check the model name.")]

/-- `resources.map_model_name_to_task_number` (`src/moosez/resources.py`,
lines 285-326): an if/elif chain returning the task-number string, raising
`Exception` (embedded as `Except.error` carrying the message, \x27 being the
single-quote character of the Python f-string) for any other name. -/
def map_model_name_to_task_number (model_name : String) : Except String String :=
  if model_name = "clin_ct_lungs" then .ok "333"
  else if model_name = "clin_ct_organs" then .ok "123"
  else if model_name = "preclin_mr_all" then .ok "234"
  else if model_name = "clin_ct_body" then .ok "001"
  else if model_name = "clin_ct_ribs" then .ok "444"
  else if model_name = "clin_ct_muscles" then .ok "555"
  else if model_name = "clin_ct_peripheral_bones" then .ok "666"
  else if model_name = "clin_ct_fat" then .ok "777"
  else if model_name = "clin_ct_vertebrae" then .ok "111"
  else if model_name = "clin_ct_cardiac" then .ok "888"
  else if model_name = "clin_ct_digestive" then .ok "999"
  else if model_name = "preclin_ct_legs" then .ok "256"
  else if model_name = "clin_ct_all_bones_v1" then .ok "600"
  else if model_name = "clin_ct_PUMA" then .ok "002"
  else if model_name = "clin_pt_fdg_brain_v1" then .ok "100"
  else if model_name = "clin_ct_ALPACA" then .ok "080"
  else if model_name = "clin_ct_PUMA4" then .ok "003"
  else .error ("Error: The model name \x27" ++ model_name ++ "\x27 is not valid.")

/-- The digit string that immediately follows the leading "Dataset" in an
nnU-Net dataset directory name (the task number, per the comment at
`src/moosez/resources.py`, lines 278-281). -/
def taskNumberFromDirectory (d : String) : String :=
  (((d.toList).drop 7).takeWhile Char.isDigit).asString

end Resources

/-- `os.devnull` on the POSIX platforms the tool targets. -/
def devnull : String := "/dev/null"

/-- `os.path.join` for the two-argument uses in `system.py` (POSIX join of a
directory and a relative file name). -/
def path_join (a b : String) : String := a ++ "/" ++ b

/-- State of a `rich.console.Console`: its `quiet` flag and the sequence of
renderables actually written to the terminal sink (a quiet console discards
every `print`). -/
structure ConsoleState where
  quiet : Bool
  printed : List String
deriving DecidableEq, Repr

/-- `rich.console.Console.print`: renders to the sink unless the console is
quiet.  Renderables are represented by their rendered text. -/
def ConsoleState.print (c : ConsoleState) (r : String) : ConsoleState :=
  if c.quiet then c else { c with printed := c.printed ++ [r] }

/-- State of a `halo.Halo` spinner: its `enabled` flag, current text and
whether it is running. -/
structure SpinnerState where
  enabled : Bool
  text : Option String
  running : Bool
deriving DecidableEq, Repr

/-- One `logging.Handler` attached to a logger: the file it writes and whether
it is a `logging.FileHandler` (the `isinstance` test in `configure_logging`
distinguishes exactly that), plus its severity level. -/
structure Handler where
  filename : String
  isFileHandler : Bool
  level : Nat
deriving DecidableEq, Repr

/-- A logger object of the process-global `logging` registry: severity level,
propagation flag, attached handlers, and the records written through it. -/
structure Logger where
  level : Nat
  propagate : Bool
  handlers : List Handler
  records : List String
deriving DecidableEq, Repr

/-- `logging.INFO`. -/
def INFO : Nat := 20

/-- `logging.WARNING`, the effective default level of a fresh logger. -/
def WARNING : Nat := 30

/-- A fresh logger as `logging.getLogger` creates one on first request. -/
def freshLogger : Logger :=
  { level := WARNING, propagate := true, handlers := [], records := [] }

/-- The process-global logging world: the `logging` module registry of named
loggers, and the files created on disk by handler construction. -/
structure LoggingWorld where
  registry : List (String × Logger)
  createdFiles : List String
deriving DecidableEq, Repr

/-- Replace (or insert) the logger bound to `name` in the registry. -/
def setLogger (reg : List (String × Logger)) (name : String) (l : Logger) :
    List (String × Logger) :=
  match reg with
  | [] => [(name, l)]
  | (k, v) :: rest =>
      if k = name then (k, l) :: rest else (k, v) :: setLogger rest name l

/-- Ambient inputs of a session instant: the current working directory
(`os.getcwd`) and the formatted `datetime.now` timestamp. -/
structure LogEnv where
  cwd : String
  timestamp : String
deriving DecidableEq, Repr

/-- The state held by one `OutputManager` instance
(`src/moosez/system.py`, lines 53-62). -/
structure OutputManagerState where
  verbose_console : Bool
  verbose_log : Bool
  console : ConsoleState
  spinner : SpinnerState
  logger : Option String
  nnunet_log_filename : String
deriving DecidableEq, Repr

/-- The rendered text of an external banner payload.  `pyfiglet.figlet_format`
is a third-party ASCII-art renderer whose output content no claim inspects;
the embedding keeps the input text. -/
def figlet_format (text : String) (_font : String) : String := text

/-- `emoji.emojize`, third-party; the embedding keeps the input text, whose
content no claim inspects. -/
def emojize (s : String) : String := s

/-- `rich.text.Text.from_ansi`: converts a plain string with embedded ANSI
codes into a styled renderable; the embedding keeps the text content. -/
def Text_from_ansi (s : String) : String := s

/-- The process stream targets: where `sys.stdout` and `sys.stderr` currently
point (identified by target path/handle name). -/
structure StreamState where
  stdout : String
  stderr : String
deriving DecidableEq, Repr

/-- `contextlib.redirect_stdout` used as a `with`-block around `body`:
`__enter__` saves the current stdout target and installs `target`; `__exit__`
restores the saved target unconditionally — on normal completion and on an
exception propagating out of the body alike (the `with` statement runs
`__exit__` on every exit path, and `redirect_stdout.__exit__` does not
swallow the exception).  A body is any state transformer that may finish
normally (`Except.ok`) or raise (`Except.error`). -/
def redirect_stdout {E A : Type} (target : String)
    (body : StreamState → StreamState × Except E A) (s : StreamState) :
    StreamState × Except E A :=
  let saved := s.stdout
  let r := body { s with stdout := target }
  ({ r.1 with stdout := saved }, r.2)

/-- `contextlib.redirect_stderr`, exactly as `redirect_stdout` but for the
stderr target. -/
def redirect_stderr {E A : Type} (target : String)
    (body : StreamState → StreamState × Except E A) (s : StreamState) :
    StreamState × Except E A :=
  let saved := s.stderr
  let r := body { s with stderr := target }
  ({ r.1 with stderr := saved }, r.2)

/-- The `Union[str, RenderableType]` argument of `console_update`. -/
inductive ConsoleInput where
  | str (s : String)
  | renderable (r : String)
deriving DecidableEq, Repr

namespace OutputManager

/-- `OutputManager.__init__` (`src/moosez/system.py`, lines 54-62): console
quiet unless console verbosity is on, spinner enabled with console verbosity,
no logger yet, nnU-Net redirect target defaulting to the null device. -/
def init (verbose_console : Bool) (verbose_log : Bool) : OutputManagerState :=
  { verbose_console := verbose_console,
    verbose_log := verbose_log,
    console := { quiet := !verbose_console, printed := [] },
    spinner := { enabled := verbose_console, text := none, running := false },
    logger := none,
    nnunet_log_filename := devnull }

/-- `OutputManager.create_table` (`src/moosez/system.py`, lines 74-80).  A
table is embedded as its list of (header, optional style) columns; `zip`
truncates to the shorter of the two lists.  The `Except` result type leaves
room for a raised error, and the body — which contains no `raise` — never
produces one. -/
def create_table (header : List String) (styles : Option (List String)) :
    Except String (List (String × Option String)) :=
  let stylesList : List (Option String) :=
    match styles with
    | none => List.replicate header.length none
    | some s => s.map some
  Except.ok (header.zip stylesList)

/-- `OutputManager.configure_logging` (`src/moosez/system.py`, lines 82-106):
returns immediately unless log verbosity is on and no logger is set; resolves
the directory (default `os.getcwd()`), records the nnU-Net redirect file name,
fetches or creates the process-global logger named `moosez-v<VERSION>`, sets
level/propagation, and attaches a fresh `FileHandler` (creating its file,
mode `w`) unless one is already attached. -/
def configure_logging (env : LogEnv) (om : OutputManagerState)
    (w : LoggingWorld) (log_file_directory : Option String) :
    OutputManagerState × LoggingWorld :=
  if !om.verbose_log || om.logger.isSome then (om, w)
  else
    let dir := log_file_directory.getD env.cwd
    let nnunet_fn :=
      path_join dir ("moosez-v" ++ VERSION ++ "_nnUNet_" ++ env.timestamp ++ ".log")
    let name := "moosez-v" ++ VERSION
    let logger0 := (w.registry.lookup name).getD freshLogger
    let logger1 := { logger0 with level := INFO, propagate := false }
    let result :=
      if logger1.handlers.any (fun h => h.isFileHandler) then
        (logger1, w.createdFiles)
      else
        let log_fn :=
          path_join dir ("moosez-v" ++ VERSION ++ "_" ++ env.timestamp ++ ".log")
        ({ logger1 with
             handlers := logger1.handlers ++
               [{ filename := log_fn, isFileHandler := true, level := INFO }] },
         w.createdFiles ++ [log_fn])
    ({ om with logger := some name, nnunet_log_filename := nnunet_fn },
     { registry := setLogger w.registry name result.1, createdFiles := result.2 })

/-- `OutputManager.log_update` (`src/moosez/system.py`, lines 108-110):
`self.logger.info(text)` guarded by `self.verbose_log and self.logger`. -/
def log_update (om : OutputManagerState) (w : LoggingWorld) (text : String) :
    LoggingWorld :=
  if om.verbose_log then
    match om.logger with
    | some name =>
        match w.registry.lookup name with
        | some l =>
            { w with registry :=
                setLogger w.registry name { l with records := l.records ++ [text] } }
        | none => w
    | none => w
  else w

/-- `OutputManager.console_update` (`src/moosez/system.py`, lines 112-115):
plain strings are converted via `Text.from_ansi`, then printed on the
session console. -/
def console_update (om : OutputManagerState) (input : ConsoleInput) :
    OutputManagerState :=
  let rendered :=
    match input with
    | .str s => Text_from_ansi s
    | .renderable r => r
  { om with console := om.console.print rendered }

/-- `OutputManager.spinner_update` (`src/moosez/system.py`, lines 117-119). -/
def spinner_update (om : OutputManagerState) (text : Option String) :
    OutputManagerState :=
  if om.spinner.enabled then
    { om with spinner := { om.spinner with text := text } }
  else om

/-- `OutputManager.spinner_stop` (`src/moosez/system.py`, lines 121-123). -/
def spinner_stop (om : OutputManagerState) : OutputManagerState :=
  if om.spinner.enabled then
    { om with spinner := { om.spinner with running := false } }
  else om

/-- `OutputManager.spinner_start` (`src/moosez/system.py`, lines 125-127). -/
def spinner_start (om : OutputManagerState) (text : Option String) :
    OutputManagerState :=
  if om.spinner.enabled then
    { om with spinner := { om.spinner with running := true, text := text } }
  else om

/-- `OutputManager.spinner_succeed` (`src/moosez/system.py`, lines 129-131). -/
def spinner_succeed (om : OutputManagerState) (text : Option String) :
    OutputManagerState :=
  if om.spinner.enabled then
    { om with spinner := { om.spinner with running := false, text := text } }
  else om

/-- `OutputManager.display_logo` (`src/moosez/system.py`, lines 140-154). -/
def display_logo (om : OutputManagerState) : OutputManagerState :=
  let om := console_update om (.str " ")
  let om := console_update om
    (.str (ANSI_VIOLET ++ figlet_format " MOOSE 3.0" "smslant" ++ ANSI_RESET))
  let om := console_update om
    (.str (ANSI_VIOLET ++ " A part of the ENHANCE community. Join us at www.enhance.pet to build the future of PET imaging together." ++ ANSI_RESET))
  console_update om (.str " ")

/-- `OutputManager.display_authors` (`src/moosez/system.py`, lines 156-167). -/
def display_authors (om : OutputManagerState) : OutputManagerState :=
  let om := console_update om
    (.str (ANSI_VIOLET ++ " " ++ emojize ":desktop_computer:" ++ "  AUTHORS:" ++ ANSI_RESET))
  let om := console_update om (.str " ")
  let om := console_update om
    (.str " The Three Moose-keteers 🤺: Lalith Kumar Shiyam Sundar | Sebastian Gutschmayer | Manuel Pires")
  console_update om (.str " ")

/-- `OutputManager.display_doi` (`src/moosez/system.py`, lines 169-182). -/
def display_doi (om : OutputManagerState) : OutputManagerState :=
  let om := console_update om
    (.str (ANSI_VIOLET ++ " " ++ emojize ":scroll:" ++ " CITATION:" ++ ANSI_RESET))
  let om := console_update om (.str " ")
  let om := console_update om
    (.str " Fully Automated, Semantic Segmentation of Whole-Body [18F]-FDG PET/CT Images Based on Data-Centric Artificial Intelligence")
  let om := console_update om (.str " 10.2967/jnumed.122.264063")
  let om := console_update om (.str " ")
  console_update om
    (.str " Copyright 2022, Quantitative Imaging and Medical Physics Team, Medical University of Vienna")

/-- `OutputManager.manage_nnUNet_output` (`src/moosez/system.py`, lines
133-138): picks the redirect target (the session nnU-Net log file in
verbose-log mode, the null device otherwise; the open mode `a`/`w` does not
affect the stream targets) and runs the wrapped block with both standard
streams redirected there, under the `with`-statement semantics of
`redirect_stdout`/`redirect_stderr` — restored on every exit path. -/
def manage_nnUNet_output {E A : Type} (verbose_log : Bool)
    (nnunet_log_filename : String)
    (body : StreamState → StreamState × Except E A) (s : StreamState) :
    StreamState × Except E A :=
  let target_path := if verbose_log then nnunet_log_filename else devnull
  redirect_stdout target_path (redirect_stderr target_path body) s

end OutputManager

/-- The torch environment probes consulted by `check_device`:
`torch.cuda.is_available()`, `torch.cuda.device_count()`,
`torch.backends.mps.is_available()`, `torch.backends.mps.is_built()`. -/
structure TorchEnv where
  cuda_is_available : Bool
  cuda_device_count : Nat
  mps_is_available : Bool
  mps_is_built : Bool
deriving DecidableEq, Repr

/-- Result of `system.check_device`: the returned pair (backend string,
optional device count), the lines passed to the injected output manager's
`console_update`, and the torch probes evaluated, in order (Python's
`if`/`elif` chain evaluates a probe only when every earlier branch
condition was false). -/
structure DeviceSelection where
  backend : String
  deviceCount : Option Nat
  consoleCalls : List String
  torchQueries : List String
deriving DecidableEq, Repr

/-- `system.check_device` (`src/moosez/system.py`, lines 185-206).  Branches:
CUDA first (returning the device count), then MPS availability, then the
MPS-not-built diagnostic, then the generic CPU fallback; each branch routes
exactly one status line through `output_manager.console_update`. -/
def check_device (env : TorchEnv) : DeviceSelection :=
  if env.cuda_is_available then
    { backend := "cuda",
      deviceCount := some env.cuda_device_count,
      consoleCalls := [" CUDA is available with " ++ toString env.cuda_device_count
        ++ " GPU(s). Predictions will be run on GPU."],
      torchQueries := ["cuda.is_available", "cuda.device_count"] }
  else if env.mps_is_available then
    { backend := "mps",
      deviceCount := none,
      consoleCalls := [" Apple MPS backend is available. Predictions will be run on Apple Silicon GPU."],
      torchQueries := ["cuda.is_available", "mps.is_available"] }
  else if !env.mps_is_built then
    { backend := "cpu",
      deviceCount := none,
      consoleCalls := [" MPS not available because the current PyTorch install was not built with MPS enabled."],
      torchQueries := ["cuda.is_available", "mps.is_available", "mps.is_built"] }
  else
    { backend := "cpu",
      deviceCount := none,
      consoleCalls := [" CUDA/MPS not available. Predictions will be run on CPU."],
      torchQueries := ["cuda.is_available", "mps.is_available", "mps.is_built"] }

namespace Resources

/-- `resources.check_device` (`src/moosez/resources.py`, lines 329-351): the
same four-way branch chain as `system.check_device`, but returning only the
backend string and writing its status line with built-in `print`; the pair
collects (returned string, printed lines). -/
def check_device (env : TorchEnv) : String × List String :=
  if env.cuda_is_available then
    ("cuda", [" CUDA is available with " ++ toString env.cuda_device_count
      ++ " GPU(s). Predictions will be run on GPU."])
  else if env.mps_is_available then
    ("mps", [" Apple MPS backend is available. Predictions will be run on Apple Silicon GPU."])
  else if !env.mps_is_built then
    ("cpu", [" MPS not available because the current PyTorch install was not built with MPS enabled."])
  else
    ("cpu", [" CUDA/MPS not available. Predictions will be run on CPU."])

end Resources

/-! ## Claim theorems -/

/-- Claim C1, counterexample: `create_table(["a","b"], ["red"])` does not fail
at all — the body contains no validation and `zip` silently truncates, so the
call returns a one-column table ("a" styled "red") instead of raising an
`InvalidConfiguration` error on the 2-headers/1-style mismatch. -/
theorem create_table_mismatch_returns_ok :
    OutputManager.create_table ["a", "b"] (some ["red"]) =
      Except.ok [("a", some "red")] := by
  rfl

/-- Claim C1, amended: `create_table` never fails; it pairs headers with
styles by `zip`, truncating to the shorter list, so a mismatched call returns
a table with `min` -many columns, and for every headers/styles pair of equal
length it returns a table with one column per header, styled per the
corresponding style (omitted styles give unstyled columns, one per header). -/
theorem create_table_zips_and_truncates (header styles : List String) :
    OutputManager.create_table header (some styles) =
      Except.ok (header.zip (styles.map some)) ∧
    (header.zip (styles.map some)).length = min header.length styles.length ∧
    (header.length = styles.length →
      (header.zip (styles.map some)).length = header.length) ∧
    OutputManager.create_table header none =
      Except.ok (header.zip (List.replicate header.length (none : Option String))) ∧
    (header.zip (List.replicate header.length (none : Option String))).length =
      header.length := by
  refine ⟨rfl, by simp, fun h => by simp [h], rfl, by simp⟩

/-- Claim C1, witness for the equal-length hypothesis of the amended claim. -/
theorem create_table_zips_and_truncates_witness :
    (["a", "b"] : List String).length = (["red", "blue"] : List String).length ∧
    ((["a", "b"] : List String).zip ((["red", "blue"] : List String).map some)).length =
      (["a", "b"] : List String).length :=
  ⟨by decide, (create_table_zips_and_truncates ["a", "b"] ["red", "blue"]).2.2.1 (by decide)⟩

/-- Claim C2: whenever the CUDA runtime reports available with N visible
devices, `system.check_device` returns backend "cuda" with device count N,
and neither MPS probe (`mps.is_available`, `mps.is_built`) is evaluated:
the CUDA branch is checked first and short-circuits the chain. -/
theorem check_device_cuda_short_circuits (env : TorchEnv)
    (h : env.cuda_is_available = true) :
    (check_device env).backend = "cuda" ∧
    (check_device env).deviceCount = some env.cuda_device_count ∧
    (check_device env).torchQueries = ["cuda.is_available", "cuda.device_count"] ∧
    "mps.is_available" ∉ (check_device env).torchQueries ∧
    "mps.is_built" ∉ (check_device env).torchQueries := by
  refine ⟨?_, ?_, ?_, ?_, ?_⟩ <;> simp [check_device, h]

/-- Claim C2, witness: a CUDA environment with 4 devices. -/
theorem check_device_cuda_short_circuits_witness :
    (check_device ⟨true, 4, false, true⟩).backend = "cuda" ∧
    (check_device ⟨true, 4, false, true⟩).deviceCount = some 4 ∧
    (check_device ⟨true, 4, false, true⟩).torchQueries =
      ["cuda.is_available", "cuda.device_count"] ∧
    "mps.is_available" ∉ (check_device ⟨true, 4, false, true⟩).torchQueries ∧
    "mps.is_built" ∉ (check_device ⟨true, 4, false, true⟩).torchQueries :=
  check_device_cuda_short_circuits ⟨true, 4, false, true⟩ rfl

/-- Claim C5: with no CUDA and no MPS available, `system.check_device`
returns backend "cpu" with no device count, performs exactly one
`console_update` call on the injected output manager, and the single status
line is the build-level diagnostic when MPS was not built, the generic
no-accelerator line otherwise — two distinct lines.  The embedding is a total
function, so the selection never raises. -/
theorem check_device_cpu_fallback (env : TorchEnv)
    (h1 : env.cuda_is_available = false) (h2 : env.mps_is_available = false) :
    (check_device env).backend = "cpu" ∧
    (check_device env).deviceCount = none ∧
    (check_device env).consoleCalls.length = 1 ∧
    (check_device env).consoleCalls =
      [if env.mps_is_built then
        " CUDA/MPS not available. Predictions will be run on CPU."
       else
        " MPS not available because the current PyTorch install was not built with MPS enabled."] ∧
    (" CUDA/MPS not available. Predictions will be run on CPU." : String) ≠
      " MPS not available because the current PyTorch install was not built with MPS enabled." := by
  cases hb : env.mps_is_built <;>
    refine ⟨?_, ?_, ?_, ?_, ?_⟩ <;> simp [check_device, h1, h2, hb]

/-- Claim C5, witness: no accelerator, MPS built (generic CPU line). -/
theorem check_device_cpu_fallback_witness :
    (check_device ⟨false, 0, false, true⟩).backend = "cpu" ∧
    (check_device ⟨false, 0, false, true⟩).deviceCount = none ∧
    (check_device ⟨false, 0, false, true⟩).consoleCalls.length = 1 ∧
    (check_device ⟨false, 0, false, true⟩).consoleCalls =
      [if (true : Bool) then
        " CUDA/MPS not available. Predictions will be run on CPU."
       else
        " MPS not available because the current PyTorch install was not built with MPS enabled."] ∧
    (" CUDA/MPS not available. Predictions will be run on CPU." : String) ≠
      " MPS not available because the current PyTorch install was not built with MPS enabled." :=
  check_device_cpu_fallback ⟨false, 0, false, true⟩ rfl rfl

/-- Claim C10: the two `check_device` implementations agree in every
environment — the backend string `resources.check_device` returns equals the
first component of `system.check_device`'s result, and the status line each
reports (via `print` and via the output manager respectively) is the same
line of the same four-way branch structure. -/
theorem check_device_implementations_agree (env : TorchEnv) :
    (Resources.check_device env).1 = (check_device env).backend ∧
    (Resources.check_device env).2 = (check_device env).consoleCalls := by
  rcases env with ⟨c, n, m, b⟩
  cases c <;> cases m <;> cases b <;>
    simp [check_device, Resources.check_device]

/-- Claim C3: `manage_nnUNet_output` hands the wrapped block both standard
streams redirected to its target, and on every exit path — a block that
finishes normally and a block that raises alike — the stream targets in
effect before entry are restored exactly, while the block's outcome
(including a raised error) is propagated unchanged to the caller. -/
theorem manage_nnUNet_output_restores_streams (E A : Type) (vl : Bool)
    (fn : String) (body : StreamState → StreamState × Except E A)
    (s : StreamState) :
    (OutputManager.manage_nnUNet_output vl fn body s).1 = s ∧
    (OutputManager.manage_nnUNet_output vl fn body s).2 =
      (body { stdout := if vl then fn else devnull,
              stderr := if vl then fn else devnull }).2 := by
  cases s
  simp [OutputManager.manage_nnUNet_output, redirect_stdout, redirect_stderr]

/-- Helper: an association-list lookup misses when no key matches. -/
theorem lookup_eq_none_of_keys_ne {β : Type} (l : List (String × β)) (a : String)
    (h : ∀ p ∈ l, p.1 ≠ a) : l.lookup a = none := by
  induction l with
  | nil => rfl
  | cons p rest ih =>
      obtain ⟨k, v⟩ := p
      have hk : (a == k) = false := by
        have := h (k, v) (List.mem_cons_self _ _)
        simp only [beq_eq_false_iff_ne, ne_eq]
        intro e
        exact this (by simp [e])
      simp only [List.lookup, hk]
      exact ih (fun q hq => h q (List.mem_cons_of_mem _ hq))

/-- Claim C6: an `OutputManager` built with console verbosity off has a quiet
console and a disabled spinner, so `console_update` (on every string or
renderable input), the three `display_*` banners and every spinner operation
leave the session state — the console sink included — entirely unchanged;
all are total functions, so none of them can raise. -/
theorem quiet_console_operations_are_noops (vl : Bool) (input : ConsoleInput)
    (t : Option String) :
    OutputManager.console_update (OutputManager.init false vl) input =
      OutputManager.init false vl ∧
    OutputManager.display_logo (OutputManager.init false vl) =
      OutputManager.init false vl ∧
    OutputManager.display_authors (OutputManager.init false vl) =
      OutputManager.init false vl ∧
    OutputManager.display_doi (OutputManager.init false vl) =
      OutputManager.init false vl ∧
    OutputManager.spinner_start (OutputManager.init false vl) t =
      OutputManager.init false vl ∧
    OutputManager.spinner_update (OutputManager.init false vl) t =
      OutputManager.init false vl ∧
    OutputManager.spinner_succeed (OutputManager.init false vl) t =
      OutputManager.init false vl ∧
    OutputManager.spinner_stop (OutputManager.init false vl) =
      OutputManager.init false vl := by
  refine ⟨?_, ?_, ?_, ?_, ?_, ?_, ?_, ?_⟩ <;>
    simp [OutputManager.init, OutputManager.console_update, ConsoleState.print,
          OutputManager.display_logo, OutputManager.display_authors,
          OutputManager.display_doi, OutputManager.spinner_start,
          OutputManager.spinner_update, OutputManager.spinner_succeed,
          OutputManager.spinner_stop]

/-- Claim C7: for every model name absent from the registry,
`map_model_name_to_task_number` fails (raises, embedded as `Except.error`
with the source's message) and `expected_modality` produces its error
dictionary — both lookups are pure, so no partial state can remain; and for
every name present, both lookups succeed (`Except.ok`, resp. a modality
dictionary carrying the "Model name" key and no "Error" key). -/
theorem registry_lookup_unknown_fails_known_succeeds (name : String) :
    (name ∉ Resources.AVAILABLE_MODELS →
      Resources.map_model_name_to_task_number name =
        Except.error ("Error: The model name \x27" ++ name ++ "\x27 is not valid.") ∧
      Resources.expected_modality name =
        [("Error", "Requested model is not available. Please check the model name.")]) ∧
    (name ∈ Resources.AVAILABLE_MODELS →
      (Resources.map_model_name_to_task_number name).isOk = true ∧
      (Resources.expected_modality name).lookup "Model name" = some name ∧
      (Resources.expected_modality name).lookup "Error" = none) := by
  constructor
  · intro h
    have hkeys : ∀ p ∈ Resources.expected_modality_table, p.1 ≠ name := by
      intro p hp e
      have : p.1 ∈ Resources.AVAILABLE_MODELS := by
        revert hp
        have : ∀ q ∈ Resources.expected_modality_table,
            q.1 ∈ Resources.AVAILABLE_MODELS := by decide
        exact this p
      rw [e] at this
      exact h this
    have hnone : Resources.expected_modality_table.lookup name = none :=
      lookup_eq_none_of_keys_ne _ _ hkeys
    simp only [Resources.AVAILABLE_MODELS, List.mem_cons, not_or,
      List.not_mem_nil, not_false_iff, and_true] at h
    obtain ⟨h1, h2, h3, h4, h5, h6, h7, h8, h9, h10, h11, h12, h13, h14,
      h15, h16, h17⟩ := h
    constructor
    · simp [Resources.map_model_name_to_task_number, h1, h2, h3, h4, h5, h6,
        h7, h8, h9, h10, h11, h12, h13, h14, h15, h16, h17]
    · simp [Resources.expected_modality, hnone]
  · intro h
    have hall : ∀ n ∈ Resources.AVAILABLE_MODELS,
        (Resources.map_model_name_to_task_number n).isOk = true ∧
        (Resources.expected_modality n).lookup "Model name" = some n ∧
        (Resources.expected_modality n).lookup "Error" = none := by decide
    exact hall name h

/-- Claim C7, witness: an absent name fails both lookups; a present name
("clin_ct_lungs") succeeds in both. -/
theorem registry_lookup_witness :
    (Resources.map_model_name_to_task_number "no_such_model" =
        Except.error ("Error: The model name \x27" ++ "no_such_model" ++ "\x27 is not valid.") ∧
      Resources.expected_modality "no_such_model" =
        [("Error", "Requested model is not available. Please check the model name.")]) ∧
    ((Resources.map_model_name_to_task_number "clin_ct_lungs").isOk = true ∧
      (Resources.expected_modality "clin_ct_lungs").lookup "Model name" =
        some "clin_ct_lungs" ∧
      (Resources.expected_modality "clin_ct_lungs").lookup "Error" = none) :=
  ⟨(registry_lookup_unknown_fails_known_succeeds "no_such_model").1 (by decide),
   (registry_lookup_unknown_fails_known_succeeds "clin_ct_lungs").2 (by decide)⟩

/-- Claim C9: the registry is internally consistent — every name in
`AVAILABLE_MODELS` has a `MODELS` entry (whose directory starts with
"Dataset"), an `expected_modality` entry (no "Error" key), and a successful
`map_model_name_to_task_number` lookup, and the task number returned equals
the digit string immediately following "Dataset" in the model's directory. -/
theorem registry_internally_consistent :
    ∀ name ∈ Resources.AVAILABLE_MODELS,
      (Resources.map_model_name_to_task_number name).isOk = true ∧
      (Resources.expected_modality name).lookup "Error" = none ∧
      Option.map (fun i => (i.directory.toList.take 7).asString)
          (Resources.MODELS.lookup name) = some "Dataset" ∧
      Option.map (fun i => Resources.taskNumberFromDirectory i.directory)
          (Resources.MODELS.lookup name) =
        (Resources.map_model_name_to_task_number name).toOption := by
  decide

/-- Claim C9, witness: the consistency facts at "clin_ct_lungs". -/
theorem registry_internally_consistent_witness :
    ("clin_ct_lungs" ∈ Resources.AVAILABLE_MODELS) ∧
    ((Resources.map_model_name_to_task_number "clin_ct_lungs").isOk = true ∧
      (Resources.expected_modality "clin_ct_lungs").lookup "Error" = none ∧
      Option.map (fun i => (i.directory.toList.take 7).asString)
          (Resources.MODELS.lookup "clin_ct_lungs") = some "Dataset" ∧
      Option.map (fun i => Resources.taskNumberFromDirectory i.directory)
          (Resources.MODELS.lookup "clin_ct_lungs") =
        (Resources.map_model_name_to_task_number "clin_ct_lungs").toOption) :=
  ⟨by decide, registry_internally_consistent "clin_ct_lungs" (by decide)⟩

/-- Helper: looking up the key just written by `setLogger` yields the written
logger. -/
theorem lookup_setLogger_self (reg : List (String × Logger)) (n : String)
    (l : Logger) : (setLogger reg n l).lookup n = some l := by
  induction reg with
  | nil => simp [setLogger, List.lookup]
  | cons p rest ih =>
      obtain ⟨k, v⟩ := p
      by_cases h : k = n
      · subst h
        simp [setLogger, List.lookup]
      · have hb : (n == k) = false := by
          simp only [beq_eq_false_iff_ne, ne_eq]
          exact fun e => h e.symm
        simp [setLogger, h, List.lookup, hb, ih]

/-- Claim C8: `log_update` appends an informational record to the session
logger exactly when log verbosity is on and `configure_logging` has already
installed a logger; with verbosity off, or before any logger exists, it
returns the logging world unchanged.  Appending touches no other part of the
world (no files are created). -/
theorem log_update_appends_iff_configured (om : OutputManagerState)
    (w : LoggingWorld) (text : String) :
    (om.verbose_log = false → OutputManager.log_update om w text = w) ∧
    (om.logger = none → OutputManager.log_update om w text = w) ∧
    (∀ name l, om.verbose_log = true → om.logger = some name →
      w.registry.lookup name = some l →
      (OutputManager.log_update om w text).registry.lookup name =
        some { l with records := l.records ++ [text] } ∧
      (OutputManager.log_update om w text).createdFiles = w.createdFiles) := by
  refine ⟨?_, ?_, ?_⟩
  · intro h
    simp [OutputManager.log_update, h]
  · intro h
    simp [OutputManager.log_update, h]
  · intro name l hv hl hw
    simp [OutputManager.log_update, hv, hl, hw, lookup_setLogger_self]

/-- Claim C8, witness: disabled verbosity is a no-op; an installed logger
with verbosity on receives the appended record. -/
theorem log_update_appends_witness :
    (OutputManager.log_update (OutputManager.init false false)
        { registry := [], createdFiles := [] } "m" =
      { registry := [], createdFiles := [] }) ∧
    (OutputManager.log_update
          { verbose_console := false, verbose_log := true,
            console := { quiet := true, printed := [] },
            spinner := { enabled := false, text := none, running := false },
            logger := some "L", nnunet_log_filename := "f.log" }
          { registry := [("L", freshLogger)], createdFiles := [] } "m").registry.lookup
        "L" = some { freshLogger with records := ["m"] } :=
  ⟨(log_update_appends_iff_configured (OutputManager.init false false)
      { registry := [], createdFiles := [] } "m").1 rfl,
   ((log_update_appends_iff_configured
      { verbose_console := false, verbose_log := true,
        console := { quiet := true, printed := [] },
        spinner := { enabled := false, text := none, running := false },
        logger := some "L", nnunet_log_filename := "f.log" }
      { registry := [("L", freshLogger)], createdFiles := [] } "m").2.2
      "L" freshLogger rfl rfl rfl).1⟩

/-- Claim C4: within a session started with no logger and a fresh logging
world, `configure_logging` is idempotent — with log verbosity off it is a
no-op; with it on, the first call installs the session logger with exactly
one file handler and creates exactly one log file, and a second call returns
immediately, changing neither the session state nor the logging world. -/
theorem configure_logging_idempotent_in_session (env : LogEnv)
    (om : OutputManagerState) (w : LoggingWorld) (d : Option String)
    (hlogger : om.logger = none) (hreg : w.registry = [])
    (hfiles : w.createdFiles = []) :
    (om.verbose_log = false →
      OutputManager.configure_logging env om w d = (om, w)) ∧
    (om.verbose_log = true →
      OutputManager.configure_logging env
          (OutputManager.configure_logging env om w d).1
          (OutputManager.configure_logging env om w d).2 d =
        OutputManager.configure_logging env om w d ∧
      (OutputManager.configure_logging env om w d).1.logger =
        some ("moosez-v" ++ VERSION) ∧
      Option.map (fun l => (l.handlers.filter (fun h => h.isFileHandler)).length)
          ((OutputManager.configure_logging env om w d).2.registry.lookup
            ("moosez-v" ++ VERSION)) = some 1 ∧
      (OutputManager.configure_logging env om w d).2.createdFiles.length = 1) := by
  constructor
  · intro hv
    simp [OutputManager.configure_logging, hv]
  · intro hv
    simp [OutputManager.configure_logging, hv, hlogger, hreg, hfiles,
      setLogger, freshLogger, List.lookup]

/-- Claim C4, witness: a concrete verbose-log session and a concrete quiet
session over a fresh logging world. -/
theorem configure_logging_idempotent_witness :
    (OutputManager.configure_logging { cwd := "/work", timestamp := "t" }
        (OutputManager.init false false) { registry := [], createdFiles := [] }
        none =
      (OutputManager.init false false, { registry := [], createdFiles := [] })) ∧
    (OutputManager.configure_logging { cwd := "/work", timestamp := "t" }
        (OutputManager.init false true) { registry := [], createdFiles := [] }
        none).2.createdFiles.length = 1 :=
  ⟨(configure_logging_idempotent_in_session { cwd := "/work", timestamp := "t" }
      (OutputManager.init false false) { registry := [], createdFiles := [] }
      none rfl rfl rfl).1 rfl,
   ((configure_logging_idempotent_in_session { cwd := "/work", timestamp := "t" }
      (OutputManager.init false true) { registry := [], createdFiles := [] }
      none rfl rfl rfl).2 rfl).2.2.2⟩

end Moosez
